import Mathlib

/-!
Verification development for the anki-cards-generator repository.

The Python sources are shallowly embedded as Lean definitions:

* `src/suggestion.py` — the deterministic cloze-hint generator
  `generate_suggestion_deterministic`;
* `src/image_downloader.py` — the retry/backoff loop `_search_image`
  and the idempotent `_download_image`;
* `src/sound_downloader.py` — the idempotent `SoundDownloader.download`;
* `src/main.py` — record assembly `_process_word` and the `generate` loop;
* `src/csv_handler.py` — `CSVReader.read_words` and the `AnkiCard` record;
* `src/dictionary_api.py` — `format_explanation` and `format_examples`.

Strings are modelled as Lean `String`/`List Char`; network calls, the
filesystem and `time.sleep` are modelled as explicit oracles and state so
that the control flow of the Python code is reproduced exactly.
-/

/-! ## suggestion.py -/

/-- Model of CPython `str.isspace` membership for the ASCII whitespace
characters that `str.strip()` removes (space, TAB, LF, VT, FF, CR). -/
def pyIsSpace (c : Char) : Bool :=
  c = ' ' || c = '\t' || c = '\n' || c = '\x0b' || c = '\x0c' || c = '\r'

/-- Model of Python `str.strip()`: drop leading and trailing whitespace. -/
def pyStrip (s : List Char) : List Char :=
  ((s.dropWhile pyIsSpace).reverse.dropWhile pyIsSpace).reverse

/-- `word.lower().strip()` from `generate_suggestion_deterministic`
(`str.lower` modelled on ASCII by `Char.toLower`). -/
def normalizeWord (word : String) : List Char :=
  pyStrip (word.data.map Char.toLower)

/-- The default `reveal_count` chosen when the argument is `None`:
`length <= 4 -> 2`, `length <= 7 -> 2`, otherwise `3`
(suggestion.py lines 70–76). -/
def defaultRevealCount (length : Nat) : Nat :=
  if length ≤ 4 then 2 else if length ≤ 7 then 2 else 3

/-- Resolve the optional `reveal_count` argument against the default. -/
def revealCountOf (length : Nat) : Option Nat → Nat
  | some rc => rc
  | none => defaultRevealCount length

/-- `set(int(step * (i + 1)) for i in range(reveal_count))` with
`step = length / (reveal_count + 1)` (suggestion.py lines 79–80).
Python computes `step` as a float and truncates with `int`; for
non-negative operands this equals the rational floor
`length * (i + 1) / (reveal_count + 1)`, which is what we take
(the float division is exact in every case the claims exercise). -/
def baseIndices (length rc : Nat) : List Nat :=
  (List.range rc).map (fun i => length * (i + 1) / (rc + 1))

/-- The edge correction of suggestion.py lines 82–84: if `length - 1` is
among the reveal indices, discard it and add `length - 2`. Only set
membership of the result is ever used, so a duplicate-free list stands in
for the Python `set`. -/
def fixupLast (length : Nat) (idxs : List Nat) : List Nat :=
  if length - 1 ∈ idxs then
    (idxs.filter (fun j => j != length - 1)) ++ [length - 2]
  else idxs

/-- The full reveal-index computation for a normalized word of length
`length ≥ 3`: clamp `reveal_count` to `length`, space the indices, apply
the last-character correction. -/
def hintIndices (length : Nat) (reveal_count : Option Nat) : List Nat :=
  fixupLast length (baseIndices length (min (revealCountOf length reveal_count) length))

/-- The masking loop `for i, char in enumerate(word)` (suggestion.py
lines 86–91), with the running index made explicit: reveal `char` when
its index is in the set, else emit underscore. -/
def maskFrom (idxs : List Nat) : Nat → List Char → List Char
  | _, [] => []
  | i, c :: cs => (if i ∈ idxs then c else '_') :: maskFrom idxs (i + 1) cs

/-- `" ".join(result)` on a list of single characters. -/
def joinSpace : List Char → List Char
  | [] => []
  | [c] => [c]
  | c :: c' :: cs => c :: ' ' :: joinSpace (c' :: cs)

/-- `generate_suggestion_deterministic` (suggestion.py lines 49–94):
empty word maps to the empty string; normalize; words of normalized
length ≤ 2 are returned unmasked; otherwise mask the evenly spaced
reveal indices and join with spaces. -/
def generate_suggestion_deterministic (word : String) (reveal_count : Option Nat) : String :=
  if word.data = [] then ""
  else if (normalizeWord word).length ≤ 2 then ⟨normalizeWord word⟩
  else ⟨joinSpace (maskFrom (hintIndices (normalizeWord word).length reveal_count) 0
    (normalizeWord word))⟩

/-! ### Lemmas about the hint generator -/

lemma fixupLast_not_mem (length : Nat) (idxs : List Nat) (h : 2 ≤ length) :
    length - 1 ∉ fixupLast length idxs := by
  unfold fixupLast
  split
  · intro hmem
    rcases List.mem_append.mp hmem with hf | hl
    · have := List.of_mem_filter hf
      simp at this
    · have : length - 1 = length - 2 := by simpa using hl
      omega
  · assumption

lemma maskFrom_ne_nil (idxs : List Nat) (i : Nat) (w : List Char) (h : w ≠ []) :
    maskFrom idxs i w ≠ [] := by
  cases w with
  | nil => exact absurd rfl h
  | cons c cs => simp [maskFrom]

lemma joinSpace_ne_nil (l : List Char) (h : l ≠ []) : joinSpace l ≠ [] := by
  cases l with
  | nil => exact absurd rfl h
  | cons c cs =>
    cases cs with
    | nil => simp [joinSpace]
    | cons c' cs' => simp [joinSpace]

lemma joinSpace_getLast? (l : List Char) (h : l ≠ []) :
    (joinSpace l).getLast? = l.getLast? := by
  induction l with
  | nil => exact absurd rfl h
  | cons c cs ih =>
    cases cs with
    | nil => rfl
    | cons c' cs' =>
      have hne : joinSpace (c' :: cs') ≠ [] := joinSpace_ne_nil _ (by simp)
      obtain ⟨d, ds, hds⟩ : ∃ d ds, joinSpace (c' :: cs') = d :: ds := by
        cases hj : joinSpace (c' :: cs') with
        | nil => exact absurd hj hne
        | cons d ds => exact ⟨d, ds, rfl⟩
      calc (joinSpace (c :: c' :: cs')).getLast?
          = (c :: ' ' :: joinSpace (c' :: cs')).getLast? := rfl
        _ = (' ' :: joinSpace (c' :: cs')).getLast? := List.getLast?_cons_cons
        _ = (joinSpace (c' :: cs')).getLast? := by
            rw [hds]; exact List.getLast?_cons_cons
        _ = (c' :: cs').getLast? := ih (by simp)
        _ = (c :: c' :: cs').getLast? := List.getLast?_cons_cons.symm

lemma maskFrom_getLast? (idxs : List Nat) :
    ∀ (w : List Char) (i : Nat), w ≠ [] → (i + w.length - 1) ∉ idxs →
      (maskFrom idxs i w).getLast? = some '_' := by
  intro w
  induction w with
  | nil => intro i h _; exact absurd rfl h
  | cons c cs ih =>
    intro i _ hidx
    cases cs with
    | nil =>
      have hi : i ∉ idxs := by simpa using hidx
      simp [maskFrom, hi]
    | cons c' cs' =>
      have hstep : (i + 1) + (c' :: cs').length - 1 ∉ idxs := by
        have : (i + 1) + (c' :: cs').length - 1 = i + (c :: c' :: cs').length - 1 := by
          simp; omega
        rw [this]; exact hidx
      have := ih (i + 1) (by simp) hstep
      calc (maskFrom idxs i (c :: c' :: cs')).getLast?
          = ((if i ∈ idxs then c else '_') ::
              maskFrom idxs (i + 1) (c' :: cs')).getLast? := rfl
        _ = (maskFrom idxs (i + 1) (c' :: cs')).getLast? := by
            obtain ⟨d, ds, hds⟩ : ∃ d ds, maskFrom idxs (i + 1) (c' :: cs') = d :: ds := by
              cases hm : maskFrom idxs (i + 1) (c' :: cs') with
              | nil => exact absurd hm (maskFrom_ne_nil _ _ _ (by simp))
              | cons d ds => exact ⟨d, ds, rfl⟩
            rw [hds]; exact List.getLast?_cons_cons
        _ = some '_' := this

/-! ### Claims C1–C3 -/

/-- C1: for "absorb" with no explicit reveal count, the deterministic
hint is exactly "_ _ s _ r _": length 6 gives default reveal count 2,
step 6/3 = 2, reveal indices 2 and 4, no last-character correction. -/
theorem absorb_hint_golden :
    generate_suggestion_deterministic "absorb" none = "_ _ s _ r _" := by
  decide

/-- C2 counterexample: the claim "hint(word) = word whenever
len(word) ≤ 2" fails at word "AB": the function lowercases first and
returns "ab". -/
theorem hint_short_word_counterexample :
    ("AB" : String).length ≤ 2 ∧
      generate_suggestion_deterministic "AB" none ≠ "AB" := by
  constructor
  · decide
  · decide

/-- C2 (amended): for every word whose normalized (lowercased, trimmed)
form has length at most 2, the hint is the normalized word itself — so
the word is returned unchanged exactly when it is already normalized. -/
theorem hint_short_word_unmasked (word : String) (reveal_count : Option Nat)
    (h : (normalizeWord word).length ≤ 2) :
    generate_suggestion_deterministic word reveal_count = ⟨normalizeWord word⟩ := by
  unfold generate_suggestion_deterministic
  by_cases hw : word.data = []
  · have : normalizeWord word = [] := by
      unfold normalizeWord
      rw [hw]
      rfl
    simp [hw, this]
  · simp [hw, h]

/-- Witness for the amended C2 at the already-normalized word "ab". -/
theorem hint_short_word_unmasked_witness :
    (normalizeWord "ab").length ≤ 2 ∧
      generate_suggestion_deterministic "ab" none = ⟨normalizeWord "ab"⟩ :=
  ⟨by decide, hint_short_word_unmasked "ab" none (by decide)⟩

/-- C3: for every word whose normalized length is at least 3, and any
reveal-count argument, the last character of the hint output is an
underscore: the final character of the word is never revealed. -/
theorem hint_last_char_masked (word : String) (reveal_count : Option Nat)
    (h : 3 ≤ (normalizeWord word).length) :
    (generate_suggestion_deterministic word reveal_count).data.getLast? = some '_' := by
  have hw : word.data ≠ [] := by
    intro e
    have : normalizeWord word = [] := by
      unfold normalizeWord; rw [e]; rfl
    rw [this] at h
    simp at h
  have hlen : ¬ (normalizeWord word).length ≤ 2 := by omega
  have hne : normalizeWord word ≠ [] := by
    intro e; rw [e] at h; simp at h
  unfold generate_suggestion_deterministic
  simp only [hw, hlen, if_neg, if_false, ite_false]
  show (joinSpace (maskFrom (hintIndices (normalizeWord word).length reveal_count) 0
      (normalizeWord word))).getLast? = some '_'
  rw [joinSpace_getLast? _ (maskFrom_ne_nil _ _ _ hne)]
  apply maskFrom_getLast?
  · exact hne
  · show 0 + (normalizeWord word).length - 1 ∉ hintIndices (normalizeWord word).length reveal_count
    have h2 : 2 ≤ (normalizeWord word).length := by omega
    simpa using fixupLast_not_mem _ _ h2

/-- Witness for C3 at word "absorb" with default reveal count. -/
theorem hint_last_char_masked_witness :
    3 ≤ (normalizeWord "absorb").length ∧
      (generate_suggestion_deterministic "absorb" none).data.getLast? = some '_' :=
  ⟨by decide, hint_last_char_masked "absorb" none (by decide)⟩

/-! ## image_downloader.py — the retry loop `_search_image` -/

/-- One outcome of the Pexels search HTTP call, as seen by the retry
loop: a successful JSON response carrying the list of photo URLs
(`photos[i]["src"]["medium"]`), an `HTTPError` with its status code
raised by `raise_for_status`, or any other `RequestException`. -/
inductive SearchResult where
  | ok (photos : List String)
  | httpError (status : Nat)
  | requestError
deriving DecidableEq

/-- Observable outcome of `_search_image`: the returned URL (if any),
the number of HTTP search attempts performed, and the list of
`time.sleep` delays in order. -/
structure SearchOutcome where
  result : Option String
  attempts : Nat
  sleeps : List Nat
deriving DecidableEq

/-- The body of `for attempt in range(max_retries + 1)` in
`_search_image` (image_downloader.py lines 64–95). `oracle n` is the
result of the HTTP call on attempt number `n`; `fuel` counts the loop
iterations that remain (`max_retries + 1 - attempt`), and the final
`return None` after the loop is the `fuel = 0` case. On a 429 with
attempts remaining the loop sleeps `initial_delay * 2 ^ attempt` and
continues; every other outcome returns from inside the loop. -/
def searchAttempts (oracle : Nat → SearchResult) (max_retries initial_delay : Nat) :
    Nat → Nat → SearchOutcome
  | _, 0 => ⟨none, 0, []⟩
  | attempt, fuel + 1 =>
    match oracle attempt with
    | .ok photos =>
      match photos with
      | url :: _ => ⟨some url, 1, []⟩
      | [] => ⟨none, 1, []⟩
    | .httpError status =>
      if status = 429 then
        if attempt < max_retries then
          let rest := searchAttempts oracle max_retries initial_delay (attempt + 1) fuel
          ⟨rest.result, rest.attempts + 1, initial_delay * 2 ^ attempt :: rest.sleeps⟩
        else ⟨none, 1, []⟩
      else ⟨none, 1, []⟩
    | .requestError => ⟨none, 1, []⟩

/-- `_search_image(keyword, max_retries, initial_delay)` with the HTTP
call abstracted as `oracle`: run the loop from attempt 0 with
`max_retries + 1` iterations available. -/
def _search_image (oracle : Nat → SearchResult) (max_retries initial_delay : Nat) :
    SearchOutcome :=
  searchAttempts oracle max_retries initial_delay 0 (max_retries + 1)

lemma searchAttempts_always_429 (oracle : Nat → SearchResult)
    (max_retries initial_delay : Nat) (h : ∀ k, oracle k = .httpError 429) :
    ∀ fuel attempt, attempt + fuel = max_retries + 1 →
      (searchAttempts oracle max_retries initial_delay attempt fuel).result = none ∧
      (searchAttempts oracle max_retries initial_delay attempt fuel).attempts = fuel := by
  intro fuel
  induction fuel with
  | zero => intro attempt _; exact ⟨rfl, rfl⟩
  | succ n ih =>
    intro attempt hsum
    by_cases hlt : attempt < max_retries
    · have hrec := ih (attempt + 1) (by omega)
      refine ⟨?_, ?_⟩ <;> simp [searchAttempts, h attempt, hlt, hrec.1, hrec.2]
    · have hn : n = 0 := by omega
      subst hn
      refine ⟨?_, ?_⟩ <;> simp [searchAttempts, h attempt, hlt]

/-- C4: if every attempt hits the rate limit (HTTP 429), then
`_search_image` with `max_retries = N` performs exactly `N + 1` attempts
and returns None ("not found"). -/
theorem search_rate_limited_exhausts (N d : Nat) (oracle : Nat → SearchResult)
    (h : ∀ k, oracle k = .httpError 429) :
    (_search_image oracle N d).result = none ∧
      (_search_image oracle N d).attempts = N + 1 :=
  searchAttempts_always_429 oracle N d h (N + 1) 0 (by omega)

/-- Witness for C4 with N = 2 and an oracle that always returns 429. -/
theorem search_rate_limited_exhausts_witness :
    (_search_image (fun _ => .httpError 429) 2 5).result = none ∧
      (_search_image (fun _ => .httpError 429) 2 5).attempts = 2 + 1 :=
  search_rate_limited_exhausts 2 5 (fun _ => .httpError 429) (fun _ => rfl)

/-- C5: if the first two attempts hit the rate limit and the third
succeeds with a non-empty photo list, then `_search_image` with
`max_retries = 3` and initial delay `d` returns the first result's URL,
the sleeps are `d * 2^0` then `d * 2^1` (the k-th retry is preceded by a
sleep of `d * 2^(k-1)`), and the cumulative delay is `d * (2^0 + 2^1)`. -/
theorem search_backoff_success (d : Nat) (url : String) (rest : List String)
    (oracle : Nat → SearchResult)
    (h0 : oracle 0 = .httpError 429) (h1 : oracle 1 = .httpError 429)
    (h2 : oracle 2 = .ok (url :: rest)) :
    (_search_image oracle 3 d).result = some url ∧
      (_search_image oracle 3 d).sleeps = [d * 2 ^ 0, d * 2 ^ 1] ∧
      (_search_image oracle 3 d).sleeps.sum = d * (2 ^ 0 + 2 ^ 1) := by
  have e : _search_image oracle 3 d =
      ⟨some url, 3, [d * 2 ^ 0, d * 2 ^ 1]⟩ := by
    unfold _search_image
    simp [searchAttempts, h0, h1, h2]
  rw [e]
  refine ⟨rfl, rfl, ?_⟩
  simp only [List.sum_cons, List.sum_nil]
  ring

/-- Witness for C5 with d = 2 and a concrete oracle. -/
theorem search_backoff_success_witness :
    (_search_image (fun k => if k < 2 then .httpError 429 else .ok ["u"]) 3 2).result
        = some "u" ∧
      (_search_image (fun k => if k < 2 then .httpError 429 else .ok ["u"]) 3 2).sleeps
        = [2 * 2 ^ 0, 2 * 2 ^ 1] ∧
      (_search_image (fun k => if k < 2 then .httpError 429 else .ok ["u"]) 3 2).sleeps.sum
        = 2 * (2 ^ 0 + 2 ^ 1) :=
  search_backoff_success 2 "u" [] (fun k => if k < 2 then .httpError 429 else .ok ["u"])
    rfl rfl rfl

/-- C6: if the first attempt returns an empty result list, any non-429
HTTP error, or a non-HTTP request error, `_search_image` returns None
after exactly one attempt, with no retry and no sleep. -/
theorem search_no_retry_on_nontransient (N d : Nat) (oracle : Nat → SearchResult)
    (h : oracle 0 = .ok [] ∨ (∃ s, oracle 0 = .httpError s ∧ s ≠ 429) ∨
      oracle 0 = .requestError) :
    _search_image oracle N d = ⟨none, 1, []⟩ := by
  unfold _search_image
  rcases h with h | ⟨s, hs, hne⟩ | h
  · simp only [searchAttempts, h]
  · simp only [searchAttempts, hs, if_neg hne]
  · simp only [searchAttempts, h]

/-- Witness for C6 with an oracle whose first call is a 500 error. -/
theorem search_no_retry_on_nontransient_witness :
    _search_image (fun _ => .httpError 500) 3 2 = ⟨none, 1, []⟩ :=
  search_no_retry_on_nontransient 3 2 (fun _ => .httpError 500)
    (Or.inr (Or.inl ⟨500, rfl, by decide⟩))

/-! ## csv_handler.py, dictionary_api.py and main.py — record assembly -/

/-- `InputWord` from csv_handler.py: one input row after reading. -/
structure InputWord where
  keyword : String
  vietnamese : String
deriving DecidableEq

/-- `WordInfo` from dictionary_api.py: structured dictionary data. -/
structure WordInfo where
  word : String
  pronunciation_url : Option String
  transcription : Option String
  definition : Option String
  examples : List String
deriving DecidableEq

/-- `AnkiCard` from csv_handler.py: the output record, nine string
fields in output-column order `No, Image, Vietnamese, Suggestion,
Keyword, Transcription, Explanation, Sound, Example` (the source field
`example` is spelled `example'` here because `example` is a Lean
keyword). -/
structure AnkiCard where
  no : String
  image : String
  vietnamese : String
  suggestion : String
  keyword : String
  transcription : String
  explanation : String
  sound : String
  example' : String
deriving DecidableEq

/-- `DictionaryAPIClient.format_explanation` (dictionary_api.py lines
89–103): cloze markup; the definition argument is `Optional[str]` and
Python's `if not definition` treats both `None` and `""` as absent. -/
def format_explanation (word : String) (definition : Option String) : String :=
  match definition with
  | none => "\x7b\x7bc1::" ++ word ++ "\x7d\x7d"
  | some d =>
    if d = "" then "\x7b\x7bc1::" ++ word ++ "\x7d\x7d"
    else "\x7b\x7bc1::" ++ word ++ "\x7d\x7d - " ++ d

/-- `DictionaryAPIClient.format_examples` (dictionary_api.py lines
105–118): bullet list of at most the first 3 examples joined by
`<br>`. -/
def format_examples (examples : List String) : String :=
  if examples = [] then ""
  else String.intercalate "<br>" ((examples.take 3).map (fun ex => "- " ++ ex))

/-- Python truthiness of an `Optional[str]`: falsy iff `None` or `""`. -/
def optStrFalsy : Option String → Bool
  | none => true
  | some s => s == ""

/-- `AnkiCardGenerator._process_word` (main.py lines 77–111), with the
three collaborators abstracted as oracles: `translator` is
`Translator.translate_to_vietnamese`, `soundDownload url keyword` is
`SoundDownloader.download`, and `imageSearchDownload keyword` is
`PexelsImageDownloader.search_and_download`. `or ""` on an
`Optional[str]` collaborator result is `Option.getD ""` (both map `None`
and `""` to `""`). -/
def _process_word (translator : String → Option String)
    (soundDownload : String → String → Option String)
    (imageSearchDownload : String → Option String)
    (input_word : InputWord) (word_info : WordInfo) : AnkiCard :=
  let keyword := input_word.keyword
  let vietnamese :=
    if input_word.vietnamese = "" then (translator keyword).getD ""
    else input_word.vietnamese
  let sound_file :=
    match word_info.pronunciation_url with
    | some url => if url = "" then "" else (soundDownload url keyword).getD ""
    | none => ""
  let image_file := (imageSearchDownload keyword).getD ""
  let suggestion := generate_suggestion_deterministic keyword none
  let transcription := (word_info.transcription).getD ""
  let explanation := format_explanation keyword word_info.definition
  let examples := format_examples word_info.examples
  let image_anki := if image_file = "" then "" else "<img src=\"" ++ image_file ++ "\">"
  let sound_anki := if sound_file = "" then "" else "[sound:" ++ sound_file ++ "]"
  ⟨keyword, image_anki, vietnamese, suggestion, keyword, transcription, explanation,
    sound_anki, examples⟩

/-! ### Claims C7 and C10 -/

/-- C7: when the input row provides a non-empty translation, the
assembled card carries that translation verbatim and is identical under
any two translator oracles — the translation collaborator is never
consulted. -/
theorem provided_translation_never_translates
    (t1 t2 : String → Option String)
    (sd : String → String → Option String) (idl : String → Option String)
    (iw : InputWord) (wi : WordInfo) (h : iw.vietnamese ≠ "") :
    (_process_word t1 sd idl iw wi).vietnamese = iw.vietnamese ∧
      _process_word t1 sd idl iw wi = _process_word t2 sd idl iw wi := by
  unfold _process_word
  simp [h]

/-- Witness for C7 on a concrete row with provided translation "hút"
and two translators that disagree everywhere. -/
theorem provided_translation_never_translates_witness :
    (("hút" : String) ≠ "") ∧
      ((_process_word (fun _ => some "x") (fun _ _ => none) (fun _ => none)
          ⟨"absorb", "hút"⟩ ⟨"absorb", none, none, some "take in", []⟩).vietnamese = "hút" ∧
        _process_word (fun _ => some "x") (fun _ _ => none) (fun _ => none)
            ⟨"absorb", "hút"⟩ ⟨"absorb", none, none, some "take in", []⟩ =
          _process_word (fun _ => some "y") (fun _ _ => none) (fun _ => none)
            ⟨"absorb", "hút"⟩ ⟨"absorb", none, none, some "take in", []⟩) :=
  ⟨by decide, provided_translation_never_translates (fun _ => some "x") (fun _ => some "y")
    (fun _ _ => none) (fun _ => none) ⟨"absorb", "hút"⟩
    ⟨"absorb", none, none, some "take in", []⟩ (by decide)⟩

/-- C10 (implicit): the first output field `no` (CSV header "No") is set
to the keyword string itself, not a sequence number, so it always equals
the card's `keyword` field. -/
theorem card_no_is_keyword (t : String → Option String)
    (sd : String → String → Option String) (idl : String → Option String)
    (iw : InputWord) (wi : WordInfo) :
    (_process_word t sd idl iw wi).no = iw.keyword ∧
      (_process_word t sd idl iw wi).no = (_process_word t sd idl iw wi).keyword :=
  ⟨rfl, rfl⟩

/-! ## csv_handler.py `read_words` and main.py `generate` -/

/-- One raw row of the input CSV, already keyed by the header: the
values of the "Keyword" and "Vietnamese" columns (`row.get(..., "")`
yields `""` for a missing column). -/
structure CsvRow where
  keyword : String
  vietnamese : String
deriving DecidableEq

/-- Python `str.strip()` at the `String` level. -/
def stripString (s : String) : String := ⟨pyStrip s.data⟩

/-- `CSVReader.read_words` (csv_handler.py lines 52–72): strip both
columns and yield an `InputWord` only when the stripped keyword is
non-empty. -/
def read_words (rows : List CsvRow) : List InputWord :=
  rows.filterMap (fun r =>
    if stripString r.keyword = "" then none
    else some ⟨stripString r.keyword, stripString r.vietnamese⟩)

/-- The skip test of main.py line 49, `if not word_info or not
word_info.definition`: the lookup returned nothing, or a result whose
definition is `None` or empty. -/
def lookupMissing (info : Option WordInfo) : Bool :=
  match info with
  | none => true
  | some wi => optStrFalsy wi.definition

/-- The loop body of `AnkiCardGenerator.generate` (main.py lines
34–65), with the dictionary lookup abstracted as `dict_oracle`: each
input word either appends its keyword to the skipped list (when the
lookup is missing) or appends the assembled card to the output list,
preserving input order. -/
def generate (dict_oracle : String → Option WordInfo)
    (translator : String → Option String)
    (soundDownload : String → String → Option String)
    (imageSearchDownload : String → Option String) :
    List InputWord → List AnkiCard × List String
  | [] => ([], [])
  | w :: rest =>
    let p := generate dict_oracle translator soundDownload imageSearchDownload rest
    match dict_oracle w.keyword with
    | none => (p.1, w.keyword :: p.2)
    | some wi =>
      if optStrFalsy wi.definition then (p.1, w.keyword :: p.2)
      else (_process_word translator soundDownload imageSearchDownload w wi :: p.1, p.2)

lemma generate_length (dict_oracle : String → Option WordInfo)
    (t : String → Option String) (sd : String → String → Option String)
    (idl : String → Option String) (ws : List InputWord) :
    (generate dict_oracle t sd idl ws).1.length +
      (generate dict_oracle t sd idl ws).2.length = ws.length := by
  induction ws with
  | nil => rfl
  | cons w rest ih =>
    cases hd : dict_oracle w.keyword with
    | none => simp [generate, hd]; omega
    | some wi =>
      by_cases hf : optStrFalsy wi.definition
      · simp [generate, hd, hf]; omega
      · simp [generate, hd, hf]; omega

lemma generate_skipped (dict_oracle : String → Option WordInfo)
    (t : String → Option String) (sd : String → String → Option String)
    (idl : String → Option String) (ws : List InputWord) :
    (generate dict_oracle t sd idl ws).2 =
      (ws.filter (fun w => lookupMissing (dict_oracle w.keyword))).map InputWord.keyword := by
  induction ws with
  | nil => rfl
  | cons w rest ih =>
    cases hd : dict_oracle w.keyword with
    | none => simp [generate, hd, lookupMissing, ih]
    | some wi =>
      by_cases hf : optStrFalsy wi.definition
      · simp [generate, hd, lookupMissing, hf, ih]
      · simp [generate, hd, lookupMissing, hf, ih]

lemma read_words_length (rows : List CsvRow) :
    (read_words rows).length =
      (rows.filter (fun r => stripString r.keyword != "")).length := by
  induction rows with
  | nil => rfl
  | cons r rest ih =>
    by_cases hk : stripString r.keyword = ""
    · simp [read_words, hk] at ih ⊢
      exact ih
    · simp [read_words, hk] at ih ⊢
      exact ih

/-- C8: in one run, the cards and the skipped list together account for
exactly the input words — one card or one skipped keyword per word with
a non-empty trimmed keyword; the skipped list holds exactly the keywords
whose lookup is missing or has an empty definition; and rows whose
keyword is blank after trimming are dropped at read time, contributing
to neither. -/
theorem one_record_or_skip_per_word (dict_oracle : String → Option WordInfo)
    (t : String → Option String) (sd : String → String → Option String)
    (idl : String → Option String) (rows : List CsvRow) :
    (generate dict_oracle t sd idl (read_words rows)).1.length +
        (generate dict_oracle t sd idl (read_words rows)).2.length =
      (read_words rows).length ∧
    (generate dict_oracle t sd idl (read_words rows)).2 =
      ((read_words rows).filter
        (fun w => lookupMissing (dict_oracle w.keyword))).map InputWord.keyword ∧
    (read_words rows).length =
      (rows.filter (fun r => stripString r.keyword != "")).length :=
  ⟨generate_length dict_oracle t sd idl (read_words rows),
    generate_skipped dict_oracle t sd idl (read_words rows),
    read_words_length rows⟩

/-! ## sound_downloader.py and image_downloader.py — idempotent downloads -/

/-- Does `hay` start with `needle`? (helper for Python substring tests). -/
def startsWithSeq : List Char → List Char → Bool
  | _, [] => true
  | [], _ :: _ => false
  | a :: as, b :: bs => a = b && startsWithSeq as bs

/-- Python `needle in hay` on strings: `needle` occurs contiguously in
`hay`. -/
def containsSeq : List Char → List Char → Bool
  | [], needle => needle.isEmpty
  | a :: as, needle => startsWithSeq (a :: as) needle || containsSeq as needle

/-- Python `hay.endswith(needle)`. -/
def endsWithSeq (hay needle : List Char) : Bool :=
  startsWithSeq hay.reverse needle.reverse

/-- `SoundDownloader._get_extension` (sound_downloader.py lines 66–74):
substring match on the lowercased URL against `.mp3`/`.wav`/`.ogg`,
defaulting to `.mp3`. -/
def sound_get_extension (url : String) : String :=
  if containsSeq (url.data.map Char.toLower) ".mp3".data then ".mp3"
  else if containsSeq (url.data.map Char.toLower) ".wav".data then ".wav"
  else if containsSeq (url.data.map Char.toLower) ".ogg".data then ".ogg"
  else ".mp3"

/-- `PexelsImageDownloader._get_extension` (image_downloader.py lines
122–131): drop the query string (`split("?")[0]`), lowercase, suffix
match against `.jpg`/`.jpeg`/`.png`/`.webp`, defaulting to `.jpg`. -/
def image_get_extension (url : String) : String :=
  if endsWithSeq ((url.data.map Char.toLower).takeWhile (fun c => c ≠ '?')) ".jpg".data
      || endsWithSeq ((url.data.map Char.toLower).takeWhile (fun c => c ≠ '?')) ".jpeg".data
    then ".jpg"
  else if endsWithSeq ((url.data.map Char.toLower).takeWhile (fun c => c ≠ '?')) ".png".data
    then ".png"
  else if endsWithSeq ((url.data.map Char.toLower).takeWhile (fun c => c ≠ '?')) ".webp".data
    then ".webp"
  else ".jpg"

/-- Observable outcome of one download call: the returned filename (if
any), the directory contents afterwards (the set of filenames, as a
list), and how many network fetches were performed. -/
structure DownloadOutcome where
  result : Option String
  fs : List String
  fetches : Nat
deriving DecidableEq

/-- `SoundDownloader.download` (sound_downloader.py lines 24–59) with
the filesystem as explicit state `fs` and the HTTP fetch abstracted by
`fetch : url → Bool` (does the streamed GET succeed?): empty URL returns
None with no fetch; if the derived target name already exists, skip the
fetch and report it; otherwise fetch once, recording the new file on
success. -/
def sound_download (fetch : String → Bool) (suffix : String) (fs : List String)
    (url filename : String) : DownloadOutcome :=
  if url = "" then ⟨none, fs, 0⟩
  else if fs.contains (filename ++ suffix ++ sound_get_extension url) then
    ⟨some (filename ++ suffix ++ sound_get_extension url), fs, 0⟩
  else if fetch url then
    ⟨some (filename ++ suffix ++ sound_get_extension url),
      (filename ++ suffix ++ sound_get_extension url) :: fs, 1⟩
  else ⟨none, fs, 1⟩

/-- `PexelsImageDownloader._download_image` (image_downloader.py lines
97–120), modelled the same way; it has no empty-URL guard. -/
def _download_image (fetch : String → Bool) (suffix : String) (fs : List String)
    (url filename : String) : DownloadOutcome :=
  if fs.contains (filename ++ suffix ++ image_get_extension url) then
    ⟨some (filename ++ suffix ++ image_get_extension url), fs, 0⟩
  else if fetch url then
    ⟨some (filename ++ suffix ++ image_get_extension url),
      (filename ++ suffix ++ image_get_extension url) :: fs, 1⟩
  else ⟨none, fs, 1⟩

lemma sound_download_idempotent (fetch : String → Bool) (suffix : String)
    (fs : List String) (url filename : String) (hurl : url ≠ "")
    (hfetch : fetch url = true) :
    (sound_download fetch suffix
        (sound_download fetch suffix fs url filename).fs url filename).fetches = 0 ∧
    (sound_download fetch suffix
        (sound_download fetch suffix fs url filename).fs url filename).result =
      some (filename ++ suffix ++ sound_get_extension url) ∧
    (sound_download fetch suffix
        (sound_download fetch suffix fs url filename).fs url filename).fs =
      (sound_download fetch suffix fs url filename).fs ∧
    (sound_download fetch suffix fs url filename).fetches +
      (sound_download fetch suffix
        (sound_download fetch suffix fs url filename).fs url filename).fetches ≤ 1 := by
  by_cases hmem : (filename ++ suffix ++ sound_get_extension url) ∈ fs
  · simp [sound_download, hurl, hmem]
  · simp [sound_download, hurl, hmem, hfetch]

lemma image_download_idempotent (fetch : String → Bool) (suffix : String)
    (fs : List String) (url filename : String) (hfetch : fetch url = true) :
    (_download_image fetch suffix
        (_download_image fetch suffix fs url filename).fs url filename).fetches = 0 ∧
    (_download_image fetch suffix
        (_download_image fetch suffix fs url filename).fs url filename).result =
      some (filename ++ suffix ++ image_get_extension url) ∧
    (_download_image fetch suffix
        (_download_image fetch suffix fs url filename).fs url filename).fs =
      (_download_image fetch suffix fs url filename).fs ∧
    (_download_image fetch suffix fs url filename).fetches +
      (_download_image fetch suffix
        (_download_image fetch suffix fs url filename).fs url filename).fetches ≤ 1 := by
  by_cases hmem : (filename ++ suffix ++ image_get_extension url) ∈ fs
  · simp [_download_image, hmem]
  · simp [_download_image, hmem, hfetch]

/-- C9: both downloaders are idempotent on filesystem state. If the
target file already exists the call performs no fetch, leaves the
directory unchanged and reports the derived filename as success; and
calling either downloader twice (when the fetch succeeds) fetches at
most once in total, with the second call fetching nothing, returning the
same derived filename and leaving the directory as the first call left
it. -/
theorem download_idempotent (fetch : String → Bool) (suffix : String)
    (fs : List String) (url filename : String) (hurl : url ≠ "")
    (hfetch : fetch url = true) :
    (fs.contains (filename ++ suffix ++ sound_get_extension url) = true →
      sound_download fetch suffix fs url filename =
        ⟨some (filename ++ suffix ++ sound_get_extension url), fs, 0⟩) ∧
    (fs.contains (filename ++ suffix ++ image_get_extension url) = true →
      _download_image fetch suffix fs url filename =
        ⟨some (filename ++ suffix ++ image_get_extension url), fs, 0⟩) ∧
    ((sound_download fetch suffix
        (sound_download fetch suffix fs url filename).fs url filename).fetches = 0 ∧
      (sound_download fetch suffix
          (sound_download fetch suffix fs url filename).fs url filename).result =
        some (filename ++ suffix ++ sound_get_extension url) ∧
      (sound_download fetch suffix
          (sound_download fetch suffix fs url filename).fs url filename).fs =
        (sound_download fetch suffix fs url filename).fs ∧
      (sound_download fetch suffix fs url filename).fetches +
        (sound_download fetch suffix
          (sound_download fetch suffix fs url filename).fs url filename).fetches ≤ 1) ∧
    ((_download_image fetch suffix
        (_download_image fetch suffix fs url filename).fs url filename).fetches = 0 ∧
      (_download_image fetch suffix
          (_download_image fetch suffix fs url filename).fs url filename).result =
        some (filename ++ suffix ++ image_get_extension url) ∧
      (_download_image fetch suffix
          (_download_image fetch suffix fs url filename).fs url filename).fs =
        (_download_image fetch suffix fs url filename).fs ∧
      (_download_image fetch suffix fs url filename).fetches +
        (_download_image fetch suffix
          (_download_image fetch suffix fs url filename).fs url filename).fetches ≤ 1) := by
  refine ⟨?_, ?_, sound_download_idempotent fetch suffix fs url filename hurl hfetch,
    image_download_idempotent fetch suffix fs url filename hfetch⟩
  · intro hmem
    simp at hmem
    simp [sound_download, hurl, hmem]
  · intro hmem
    simp at hmem
    simp [_download_image, hmem]

/-- Witness for C9 on an empty directory with a fetch that succeeds for
the concrete Cambridge pronunciation URL. -/
theorem download_idempotent_witness :
    (("https://x.test/absorb.mp3" : String) ≠ "") ∧
      ((fun _ => true) "https://x.test/absorb.mp3" : Bool) = true ∧
      ((sound_download (fun _ => true) "_auto_tool"
          (sound_download (fun _ => true) "_auto_tool" [] "https://x.test/absorb.mp3"
            "absorb").fs "https://x.test/absorb.mp3" "absorb").fetches = 0 ∧
        (sound_download (fun _ => true) "_auto_tool"
            (sound_download (fun _ => true) "_auto_tool" [] "https://x.test/absorb.mp3"
              "absorb").fs "https://x.test/absorb.mp3" "absorb").result =
          some ("absorb" ++ "_auto_tool" ++ sound_get_extension "https://x.test/absorb.mp3")) :=
  ⟨by decide, rfl,
    (download_idempotent (fun _ => true) "_auto_tool" [] "https://x.test/absorb.mp3"
      "absorb" (by decide) rfl).2.2.1.1,
    (download_idempotent (fun _ => true) "_auto_tool" [] "https://x.test/absorb.mp3"
      "absorb" (by decide) rfl).2.2.1.2.1⟩
